import Mathlib

/-!
Shallow embedding of `shared/llm_communication_tracker.py` (the LLM
Communication Tracker of the agentic-healthcare-ai repository) and proofs
about its behaviour.

Modelling conventions:
* Python `dict` (insertion ordered, unique keys) is an association list
  `List (String × α)`; insertion of a fresh key appends at the end, insertion
  of an existing key updates in place, deletion removes the key.
* `datetime.now()` is an explicit `now : Nat` argument threaded into each
  operation; timestamps are `Nat`.
* Python `float` arithmetic on prices is modelled exactly over `ℚ`
  (for the values involved the Python doubles agree with the rationals).
* The generated ids (`comm_...`, `msg_...`) are explicit arguments.
* Webhook dispatch is a side effect; `complete_communication` returns the
  new state together with a `Bool` that is true exactly when a webhook
  notification was submitted.
-/

namespace LLMTracker

/-- Lookup in a Python-dict-style association list (`d.get(k)` / `d[k]`). -/
def dictGet {α : Type} (d : List (String × α)) (k : String) : Option α :=
  match d with
  | [] => none
  | (k', v) :: rest => if k' = k then some v else dictGet rest k

/-- Assignment `d[k] = v`: update in place when the key exists, else append (Python
dicts keep the original position of an existing key). -/
def dictSet {α : Type} (d : List (String × α)) (k : String) (v : α) : List (String × α) :=
  match d with
  | [] => [(k, v)]
  | (k', v') :: rest => if k' = k then (k, v) :: rest else (k', v') :: dictSet rest k v

/-- Deletion `del d[k]`: removes the binding for `k`.  On the unique-key lists built
by `dictSet` this coincides with Python's deletion. -/
def dictDel {α : Type} (d : List (String × α)) (k : String) : List (String × α) :=
  match d with
  | [] => []
  | (k', v') :: rest => if k' = k then dictDel rest k else (k', v') :: dictDel rest k

/-- Membership `k in d`. -/
def dictHas {α : Type} (d : List (String × α)) (k : String) : Bool :=
  (dictGet d k).isSome

inductive LLMProvider where
  | openai
  | azure_openai
  | anthropic
  | huggingface
deriving DecidableEq, Repr

inductive AgentFramework where
  | autogen
  | crewai
  | custom
deriving DecidableEq, Repr

/-- The `.value` string of the `AgentFramework` enum. -/
def AgentFramework.value : AgentFramework → String
  | .autogen => "autogen"
  | .crewai => "crewai"
  | .custom => "custom"

/-- Iteration order of `for framework in AgentFramework` (declaration order). -/
def frameworkValues : List AgentFramework := [.autogen, .crewai, .custom]

/-- A Python dict of strings, as read by `function_call.get("name", "unknown")`. -/
abbrev StrDict : Type := List (String × String)

/-- One entry of `tool_calls`; the code only reads
`tool_call.get("function", {}).get("name", "unknown")`. -/
structure ToolCallEntry where
  function : Option StrDict
deriving DecidableEq

/-- Lookup `function_call.get("name", "unknown")`. -/
def fcName (fc : StrDict) : String := (dictGet fc "name").getD "unknown"

/-- Lookup `tool_call.get("function", \x7b\x7d).get("name", "unknown")`. -/
def tcName (tc : ToolCallEntry) : String := (dictGet (tc.function.getD []) "name").getD "unknown"

/-- Python truthiness of an optional dict: `None` and `{}` are falsy. -/
def dictTruthy (d : Option StrDict) : Bool :=
  match d with
  | none => false
  | some l => !l.isEmpty

/-- Python truthiness of an optional list: `None` and `[]` are falsy. -/
def listTruthy {α : Type} (l : Option (List α)) : Bool :=
  match l with
  | none => false
  | some l => !l.isEmpty

/-- Dataclass `LLMMessage`: one message of a communication. -/
structure LLMMessage where
  id : String
  timestamp : Nat
  role : String
  content : String
  tokens : Option Int := none
  function_call : Option StrDict := none
  tool_calls : Option (List ToolCallEntry) := none
deriving DecidableEq

/-- Dataclass `LLMCommunication`: a complete LLM communication session
(after `__post_init__`, so the list fields are initialised and
`session_start` is set). -/
structure LLMCommunication where
  id : String
  agent_id : String
  agent_name : String
  agent_specialty : String
  framework : AgentFramework
  provider : LLMProvider
  model : String
  session_start : Nat
  session_end : Option Nat := none
  patient_id : Option String := none
  patient_name : Option String := none
  scenario_type : String := "assessment"
  messages : List LLMMessage := []
  system_prompt : Option String := none
  total_input_tokens : Int := 0
  total_output_tokens : Int := 0
  total_tokens : Int := 0
  cost_estimate : ℚ := 0
  response_time_ms : Int := 0
  final_response : Option String := none
  confidence_score : Option ℚ := none
  function_calls_made : List String := []
  tools_used : List String := []
  error_message : Option String := none
  error_type : Option String := none
  error_code : Option Int := none
  retry_count : Int := 0
deriving DecidableEq

/-- Mutable state of an `LLMCommunicationTracker` instance. -/
structure TrackerState where
  communications : List (String × LLMCommunication)
  active_sessions : List (String × String)
  webhook_url : Option String
deriving DecidableEq

/-- The tracker constructed by `LLMCommunicationTracker(webhook_url)`. -/
def initTracker (webhook_url : Option String) : TrackerState :=
  { communications := [], active_sessions := [], webhook_url := webhook_url }

/-- The static `self.pricing` table (per 1k tokens), as a lookup:
`pricing[provider].get(model)` returning `(input, output)` prices. -/
def pricing (provider : LLMProvider) (model : String) : Option (ℚ × ℚ) :=
  match provider with
  | .openai =>
    if model = "gpt-4" then some (3/100, 6/100)
    else if model = "gpt-4-turbo" then some (1/100, 3/100)
    else if model = "gpt-3.5-turbo" then some (15/10000, 2/1000)
    else none
  | _ => none

/-- Embeds `LLMCommunicationTracker._calculate_cost`. -/
def calculate_cost (comm : LLMCommunication) : ℚ :=
  match pricing comm.provider comm.model with
  | none => 0
  | some mp =>
    (comm.total_input_tokens : ℚ) / 1000 * mp.1 + (comm.total_output_tokens : ℚ) / 1000 * mp.2

/-- Arguments of `start_communication` (the generated `comm_id` and the
clock reading are explicit). -/
structure StartArgs where
  agent_id : String
  agent_name : String
  agent_specialty : String
  framework : AgentFramework
  provider : LLMProvider
  model : String
  patient_id : Option String := none
  patient_name : Option String := none
  scenario_type : String := "assessment"
  system_prompt : Option String := none
  comm_id : String
  now : Nat := 0
deriving DecidableEq

/-- The fresh communication record built by `start_communication`
(`LLMCommunication(...)` after `__post_init__`: zero counters, empty
lists, no `session_end`). -/
def startComm (a : StartArgs) : LLMCommunication :=
  { id := a.comm_id
    agent_id := a.agent_id
    agent_name := a.agent_name
    agent_specialty := a.agent_specialty
    framework := a.framework
    provider := a.provider
    model := a.model
    session_start := a.now
    patient_id := a.patient_id
    patient_name := a.patient_name
    scenario_type := a.scenario_type
    system_prompt := a.system_prompt }

/-- Embeds `LLMCommunicationTracker.start_communication`: stores a fresh
communication and registers it in the active-session index. -/
def start_communication (st : TrackerState) (a : StartArgs) : TrackerState :=
  { st with
      communications := dictSet st.communications a.comm_id (startComm a)
      active_sessions := dictSet st.active_sessions a.agent_id a.comm_id }

/-- Arguments of `add_message` (the generated `msg_id` and the clock are
explicit). -/
structure MsgArgs where
  role : String
  content : String
  tokens : Option Int := none
  function_call : Option StrDict := none
  tool_calls : Option (List ToolCallEntry) := none
  msg_id : String := ""
  now : Nat := 0
deriving DecidableEq

/-- The token bookkeeping of `add_message` (the body of `if tokens:`,
including the Python truthiness of `tokens`, under which `0` is falsy). -/
def applyTokens (comm : LLMCommunication) (role : String) (tokens : Option Int) :
    LLMCommunication :=
  match tokens with
  | none => comm
  | some t =>
    if t = 0 then comm
    else
      let comm :=
        if role = "user" ∨ role = "system" then
          { comm with total_input_tokens := comm.total_input_tokens + t }
        else if role = "assistant" then
          { comm with total_output_tokens := comm.total_output_tokens + t }
        else comm
      { comm with total_tokens := comm.total_input_tokens + comm.total_output_tokens }

/-- The record update `add_message` performs on the found communication:
append the message, run the token bookkeeping, and record function/tool
names (under Python truthiness of the respective arguments). -/
def addMsgUpdate (comm : LLMCommunication) (a : MsgArgs) : LLMCommunication :=
  let message : LLMMessage :=
    { id := a.msg_id
      timestamp := a.now
      role := a.role
      content := a.content
      tokens := a.tokens
      function_call := a.function_call
      tool_calls := a.tool_calls }
  let comm := { comm with messages := comm.messages ++ [message] }
  let comm := applyTokens comm a.role a.tokens
  let comm :=
    if dictTruthy a.function_call then
      { comm with
          function_calls_made := comm.function_calls_made ++ [fcName (a.function_call.getD [])] }
    else comm
  if listTruthy a.tool_calls then
    { comm with tools_used := comm.tools_used ++ (a.tool_calls.getD []).map tcName }
  else comm

/-- Embeds `LLMCommunicationTracker.add_message`: appends a message and updates
metrics; silently does nothing when `comm_id` is not in the store. -/
def add_message (st : TrackerState) (comm_id : String) (a : MsgArgs) : TrackerState :=
  match dictGet st.communications comm_id with
  | none => st
  | some comm =>
    { st with communications := dictSet st.communications comm_id (addMsgUpdate comm a) }

/-- Arguments of `complete_communication` (clock explicit). -/
structure CompleteArgs where
  final_response : String
  response_time_ms : Int
  confidence_score : Option ℚ := none
  error_message : Option String := none
  error_type : Option String := none
  error_code : Option Int := none
  retry_count : Int := 0
  now : Nat := 0
deriving DecidableEq

/-- The finalisation update `complete_communication` performs on a
non-empty communication: set the outcome fields, then the cost estimate. -/
def completeUpdate (comm : LLMCommunication) (a : CompleteArgs) : LLMCommunication :=
  let comm :=
    { comm with
        session_end := some a.now
        final_response := some a.final_response
        response_time_ms := a.response_time_ms
        confidence_score := a.confidence_score
        error_message := a.error_message
        error_type := a.error_type
        error_code := a.error_code
        retry_count := a.retry_count }
  { comm with cost_estimate := calculate_cost comm }

/-- Embeds `LLMCommunicationTracker.complete_communication`.  Returns the new
state together with `true` iff a webhook notification was submitted to the
executor.  An unknown `comm_id` is a no-op; a communication with no
messages is deleted outright (anti-noise rule) before any finalisation. -/
def complete_communication (st : TrackerState) (comm_id : String) (a : CompleteArgs) :
    TrackerState × Bool :=
  match dictGet st.communications comm_id with
  | none => (st, false)
  | some comm =>
    if comm.messages.isEmpty then
      ({ st with communications := dictDel st.communications comm_id }, false)
    else
      let comm := completeUpdate comm a
      let communications := dictSet st.communications comm_id comm
      -- `if comm.agent_id in self.active_sessions: del ...` — deletion is
      -- unconditional on which comm_id the entry holds.
      let active_sessions := dictDel st.active_sessions comm.agent_id
      ({ st with communications := communications, active_sessions := active_sessions },
       st.webhook_url.isSome)

/-- Embeds `LLMCommunicationTracker.get_communication`. -/
def get_communication (st : TrackerState) (comm_id : String) : Option LLMCommunication :=
  dictGet st.communications comm_id

/-- Python truthiness of an optional string: `None` and `""` are falsy. -/
def strTruthy (s : Option String) : Bool :=
  match s with
  | none => false
  | some s => !s.isEmpty

/-- Snapshot stored under `latest_error` in the error breakdown. -/
structure LatestError where
  message : Option String
  code : Option Int
  timestamp : Nat
  agent : String
deriving DecidableEq

/-- Per-framework entry of the stats payload. -/
structure FrameworkStats where
  count : Nat
  tokens : Int
  cost : ℚ
deriving DecidableEq

/-- Result of `get_communication_stats`.  The zero-completed branch returns
only `{"total": 0, "completed": 0}`, so every other key is optional. -/
structure CommStats where
  total : Nat
  completed : Nat
  active : Option Nat := none
  errors : Option Nat := none
  total_tokens : Option Int := none
  total_cost : Option ℚ := none
  average_response_time_ms : Option Int := none
  by_framework : Option (List (String × FrameworkStats)) := none
  error_breakdown : Option (List (String × Nat × Option LatestError)) := none
deriving DecidableEq

/-- Python `int(...)` on a rational: truncation toward zero. -/
def pyInt (q : ℚ) : Int :=
  if q < 0 then -((-q).floor) else q.floor

/-- Fallback `error_comm.error_type or "unknown"` (Python truthiness: `None` and the
empty string both fall back to `"unknown"`). -/
def errorKey (c : LLMCommunication) : String :=
  match c.error_type with
  | none => "unknown"
  | some t => if t = "" then "unknown" else t

/-- The `latest_error` snapshot built for an error communication. -/
def latestErrorOf (c : LLMCommunication) : LatestError :=
  { message := c.error_message
    code := c.error_code
    timestamp := c.session_start
    agent := c.agent_name }

/-- The `error_stats` accumulation loop of `get_communication_stats`. -/
def errorBreakdown (ecs : List LLMCommunication) :
    List (String × Nat × Option LatestError) :=
  ecs.foldl
    (fun acc c =>
      let et := errorKey c
      let acc := if dictHas acc et then acc else dictSet acc et (0, none)
      let prev := (dictGet acc et).getD (0, none)
      dictSet acc et (prev.1 + 1, some (latestErrorOf c)))
    []

/-- The communications with `session_end` set (the `completed_comms` list). -/
def completedOf (st : TrackerState) : List LLMCommunication :=
  (st.communications.map Prod.snd).filter (fun c => c.session_end.isSome)

/-- Embeds `LLMCommunicationTracker.get_communication_stats`. -/
def get_communication_stats (st : TrackerState) : CommStats :=
  let comms := st.communications.map Prod.snd
  let completed_comms := comms.filter (fun c => c.session_end.isSome)
  if completed_comms.isEmpty then { total := 0, completed := 0 }
  else
    let total_tokens := (completed_comms.map (fun c => c.total_tokens)).sum
    let total_cost := (completed_comms.map (fun c => c.cost_estimate)).sum
    let avg_response_time : ℚ :=
      ((completed_comms.map (fun c => (c.response_time_ms : ℚ))).sum) /
        (completed_comms.length : ℚ)
    let framework_stats := frameworkValues.map (fun f =>
      let fcs := completed_comms.filter (fun c => c.framework = f)
      (f.value,
       ({ count := fcs.length
          tokens := (fcs.map (fun c => c.total_tokens)).sum
          cost := (fcs.map (fun c => c.cost_estimate)).sum } : FrameworkStats)))
    let error_comms := completed_comms.filter (fun c => strTruthy c.error_message)
    { total := comms.length
      completed := completed_comms.length
      active := some st.active_sessions.length
      errors := some error_comms.length
      total_tokens := some total_tokens
      total_cost := some total_cost
      average_response_time_ms := some (pyInt avg_response_time)
      by_framework := some framework_stats
      error_breakdown := some (errorBreakdown error_comms) }

/-- Embeds `LLMCommunicationTracker.export_communications`.  The JSON rendering of
timestamps is not modelled; the payload is the list of stored
communications in store order, and an unsupported format raises
`ValueError` (modelled as `Except.error`). -/
def export_communications (st : TrackerState) (format : String) :
    Except String (List LLMCommunication) :=
  if format = "json" then .ok (st.communications.map Prod.snd)
  else .error ("Unsupported export format: " ++ format)

/-- A Python exception as seen by the tracker: its `str(...)`, an optional
`status_code` attribute, and an optional `retry_count` attribute. -/
structure PyException where
  msg : String
  status_code : Option Int := none
  retry_count : Option Int := none
deriving DecidableEq

/-- Containment `needle in hay` on Python strings (substring containment). -/
def strHas (hay needle : String) : Prop := needle.toList <:+: hay.toList

instance (hay needle : String) : Decidable (strHas hay needle) :=
  inferInstanceAs (Decidable (needle.toList <:+: hay.toList))

/-- Python `str.lower()` (the substrings compared are ASCII, where
`Char.toLower` agrees with Python). -/
def pyLower (s : String) : String := String.mk (s.toList.map Char.toLower)

/-- Embeds `LLMCommunicationTracker.parse_openai_error`: returns
`(error_message, error_type, error_code)`.  `error_message` is
`str(exception)`; every matched rule overwrites `error_code`, the fallback
keeps the exception's `status_code` attribute when present. -/
def parse_openai_error (e : PyException) : String × String × Option Int :=
  if strHas (pyLower e.msg) "insufficient_quota" ∨ strHas (pyLower e.msg) "quota" then
    (e.msg, "quota_exceeded", some 429)
  else if strHas (pyLower e.msg) "rate limit" ∨ strHas e.msg "429" then
    (e.msg, "rate_limit", some 429)
  else if strHas (pyLower e.msg) "invalid api key" ∨ strHas (pyLower e.msg) "unauthorized" ∨
      strHas e.msg "401" then
    (e.msg, "auth_failed", some 401)
  else if strHas (pyLower e.msg) "api key specified is not a valid openai format" then
    (e.msg, "invalid_key_format", some 400)
  else if strHas e.msg "400" then
    (e.msg, "bad_request", some 400)
  else if strHas e.msg "500" then
    (e.msg, "server_error", some 500)
  else
    (e.msg, "unknown_error", e.status_code)

/-- The `except` branch of `AutoGenLLMWrapper.wrap_agent`'s
`tracked_generate_reply`.  Returns the new state, the webhook flag, and the
re-raised exception (`raise e` re-raises the original object).  The source
unpacks the result of `parse_openai_error` as
`error_type, error_message, error_code` even though the function returns
`(error_message, error_type, error_code)`. -/
def autogen_handle_exception (st : TrackerState) (comm_id : String) (e : PyException)
    (response_time_ms : Int) (now : Nat) : TrackerState × Bool × PyException :=
  let r := parse_openai_error e
  let error_type := r.1
  let error_message := r.2.1
  let error_code := r.2.2
  let final_response_on_error := "Error: " ++ error_message
  let res := complete_communication st comm_id
    { final_response := final_response_on_error
      response_time_ms := response_time_ms
      error_message := some error_message
      error_type := some error_type
      error_code := error_code
      retry_count := e.retry_count.getD 0
      now := now }
  (res.1, res.2, e)

/-- The `except` branch of `CrewAILLMWrapper.wrap_agent_llm`'s
`tracked_call`.  Returns the new state, the webhook flag, and the re-raised
exception (`raise` re-raises the original object).  Here the triple is
unpacked in the order `parse_openai_error` returns it. -/
def crewai_handle_exception (st : TrackerState) (comm_id : String) (e : PyException)
    (response_time : Int) (now : Nat) : TrackerState × Bool × PyException :=
  let r := parse_openai_error e
  let error_message := r.1
  let error_type := r.2.1
  let error_code := r.2.2
  let res := complete_communication st comm_id
    { final_response := ""
      response_time_ms := response_time
      error_message := some error_message
      error_type := some error_type
      error_code := error_code
      now := now }
  (res.1, res.2, e)

/-- One call of the tracker's mutating API. -/
inductive TrackerOp where
  | start (a : StartArgs)
  | message (comm_id : String) (a : MsgArgs)
  | complete (comm_id : String) (a : CompleteArgs)

/-- Apply one tracker operation to the state. -/
def applyOp (st : TrackerState) : TrackerOp → TrackerState
  | .start a => start_communication st a
  | .message comm_id a => add_message st comm_id a
  | .complete comm_id a => (complete_communication st comm_id a).1

/-- Run a sequence of tracker operations. -/
def runOps (st : TrackerState) (ops : List TrackerOp) : TrackerState :=
  ops.foldl applyOp st

/-- Run a sequence of `add_message` calls against one communication id. -/
def runAdds (st : TrackerState) (comm_id : String) (calls : List MsgArgs) : TrackerState :=
  calls.foldl (fun s a => add_message s comm_id a) st

/-- The token count a single `add_message` call contributes to
`total_input_tokens` (its token count when the role is `user` or `system`,
else nothing). -/
def msgInTok (role : String) (tokens : Option Int) : Int :=
  if role = "user" ∨ role = "system" then tokens.getD 0 else 0

/-- The token count a single `add_message` call contributes to
`total_output_tokens` (its token count when the role is `assistant`). -/
def msgOutTok (role : String) (tokens : Option Int) : Int :=
  if role = "assistant" then tokens.getD 0 else 0

/-- Sum of the user/system token counts supplied by a call sequence. -/
def sumInTok (calls : List MsgArgs) : Int :=
  (calls.map (fun a => msgInTok a.role a.tokens)).sum

/-- Sum of the assistant token counts supplied by a call sequence. -/
def sumOutTok (calls : List MsgArgs) : Int :=
  (calls.map (fun a => msgOutTok a.role a.tokens)).sum

/-- Python truthiness of the `tokens` argument (`None` and `0` are falsy). -/
def tokTruthy (t : Option Int) : Bool :=
  match t with
  | none => false
  | some t => t != 0

/-- The per-record invariant of the store: `total_tokens` is the sum of the
two buckets, and `cost_estimate` is `0` while `session_end` is unset. -/
def TrackerInv (st : TrackerState) : Prop :=
  ∀ p ∈ st.communications,
    (p.2.total_tokens = p.2.total_input_tokens + p.2.total_output_tokens) ∧
    (p.2.session_end = none → p.2.cost_estimate = 0)

/-! Concrete fixtures used by witnesses and counterexamples. -/

/-- A placeholder communication used as the `Option.getD` default when
naming a stored record in closed statements. -/
def exDummy : LLMCommunication :=
  { id := "", agent_id := "", agent_name := "", agent_specialty := ""
    framework := .custom, provider := .openai, model := "", session_start := 0 }

/-- The `start` arguments of the spec's end-to-end scenario. -/
def exStart : StartArgs :=
  { agent_id := "a1", agent_name := "Dr. X", agent_specialty := "cardiology"
    framework := .autogen, provider := .openai, model := "gpt-4"
    patient_id := some "p1", comm_id := "c1", now := 1 }

def exSt1 : TrackerState := start_communication (initTracker none) exStart

def exSt2 : TrackerState :=
  add_message exSt1 "c1"
    { role := "user", content := "assess patient", tokens := some 1000, msg_id := "m1", now := 2 }

def exSt3 : TrackerState :=
  add_message exSt2 "c1"
    { role := "assistant", content := "recommend follow-up", tokens := some 1000
      msg_id := "m2", now := 3 }

/-- The completion arguments of the spec's end-to-end scenario. -/
def exCA4 : CompleteArgs :=
  { final_response := "recommend follow-up", response_time_ms := 1200, now := 4 }

def exSt4 : TrackerState := (complete_communication exSt3 "c1" exCA4).1

/-- Generic completion arguments used by several witnesses. -/
def exCA : CompleteArgs := { final_response := "r", response_time_ms := 1, now := 7 }

/-- A message containing both `quota` and `401`. -/
def exQuota401 : PyException := { msg := "quota 401" }

/-- A message matching no classifier rule, with a native status code. -/
def exWeird : PyException := { msg := "weird", status_code := some 418 }

/-- A late message sent to an already-completed communication. -/
def exLateMsg : MsgArgs :=
  { role := "user", content := "late", tokens := some 7, msg_id := "m3", now := 9 }

/-- The spec's rate-limit example exception. -/
def exRateErr : PyException := { msg := "Rate limit reached, please retry. (429)" }

/-- A tracker with a configured webhook holding one freshly started (empty)
communication `c2` for agent `a2`. -/
def exStE : TrackerState :=
  start_communication (initTracker (some "http://hook"))
    { exStart with comm_id := "c2", agent_id := "a2" }

/-- State `exSt4` (one completed communication) plus a freshly started empty
communication `c9` for agent `a9`. -/
def exStMix : TrackerState :=
  start_communication exSt4 { exStart with comm_id := "c9", agent_id := "a9", now := 5 }

/-- Agent `X` starts communication `A` and sends one message on it. -/
def exStA2 : TrackerState :=
  add_message (start_communication (initTracker none)
      { exStart with comm_id := "A", agent_id := "X" })
    "A" { role := "user", content := "m", msg_id := "mA", now := 2 }

/-- Then agent `X` starts communication `B`, overwriting the index
entry for `X` so that it points at `B`, not `A`. -/
def exStB : TrackerState :=
  start_communication exStA2 { exStart with comm_id := "B", agent_id := "X", now := 3 }

/-- A communication on a model absent from the pricing table, with one
token-bearing message, completed. -/
def exStU : TrackerState :=
  (complete_communication
    (add_message
      (start_communication (initTracker none)
        { exStart with comm_id := "u1", agent_id := "au", model := "made-up-model" })
      "u1" { role := "user", content := "q", tokens := some 1000, msg_id := "mu", now := 2 })
    "u1" { final_response := "r", response_time_ms := 10, now := 3 }).1

/-! Association-list lemmas. -/

theorem dictGet_dictSet_self {α : Type} (d : List (String × α)) (k : String) (v : α) :
    dictGet (dictSet d k v) k = some v := by
  induction d with
  | nil => simp [dictSet, dictGet]
  | cons p rest ih =>
    obtain ⟨k', v'⟩ := p
    by_cases h : k' = k
    · simp [dictSet, h, dictGet]
    · simp [dictSet, h, dictGet, ih]

theorem dictGet_dictSet_ne {α : Type} (d : List (String × α)) (k k' : String) (v : α)
    (h : k' ≠ k) : dictGet (dictSet d k v) k' = dictGet d k' := by
  have h2 : ¬ k = k' := fun hh => h hh.symm
  induction d with
  | nil => simp [dictSet, dictGet, h2]
  | cons p rest ih =>
    obtain ⟨k'', v''⟩ := p
    by_cases hk : k'' = k
    · subst hk
      simp [dictSet, dictGet, h2]
    · simp only [dictSet, if_neg hk, dictGet]
      by_cases hk' : k'' = k'
      · simp [hk']
      · simp [hk', ih]

theorem dictGet_dictDel_self {α : Type} (d : List (String × α)) (k : String) :
    dictGet (dictDel d k) k = none := by
  induction d with
  | nil => simp [dictDel, dictGet]
  | cons p rest ih =>
    obtain ⟨k', v'⟩ := p
    by_cases h : k' = k
    · simpa [dictDel, h] using ih
    · simp [dictDel, h, dictGet, ih]

theorem dictGet_dictDel_ne {α : Type} (d : List (String × α)) (k k' : String)
    (h : k' ≠ k) : dictGet (dictDel d k) k' = dictGet d k' := by
  induction d with
  | nil => simp [dictDel, dictGet]
  | cons p rest ih =>
    obtain ⟨k'', v''⟩ := p
    by_cases hk : k'' = k
    · subst hk
      have h2 : ¬ k'' = k' := fun hh => h hh.symm
      simp [dictDel, dictGet, h2, ih]
    · by_cases hk' : k'' = k'
      · simp [dictDel, hk, dictGet, hk', h]
      · simp [dictDel, hk, dictGet, hk', ih]

theorem dictGet_mem {α : Type} (d : List (String × α)) (k : String) (v : α)
    (h : dictGet d k = some v) : (k, v) ∈ d := by
  induction d with
  | nil => simp [dictGet] at h
  | cons p rest ih =>
    obtain ⟨k', v'⟩ := p
    by_cases hk : k' = k
    · subst hk
      simp [dictGet] at h
      simp [h]
    · simp only [dictGet, if_neg hk] at h
      simp [ih h]

theorem mem_dictSet {α : Type} (d : List (String × α)) (k : String) (v : α)
    (q : String × α) (h : q ∈ dictSet d k v) : q = (k, v) ∨ q ∈ d := by
  induction d with
  | nil => simpa [dictSet] using h
  | cons p rest ih =>
    obtain ⟨k', v'⟩ := p
    by_cases hk : k' = k
    · simp only [dictSet, if_pos hk, List.mem_cons] at h
      rcases h with h | h
      · exact Or.inl h
      · exact Or.inr (List.mem_cons_of_mem _ h)
    · simp only [dictSet, if_neg hk, List.mem_cons] at h
      rcases h with h | h
      · exact Or.inr (by simp [h])
      · rcases ih h with h' | h'
        · exact Or.inl h'
        · exact Or.inr (List.mem_cons_of_mem _ h')

theorem mem_dictDel {α : Type} (d : List (String × α)) (k : String)
    (q : String × α) (h : q ∈ dictDel d k) : q ∈ d := by
  induction d with
  | nil => simp [dictDel] at h
  | cons p rest ih =>
    obtain ⟨k', v'⟩ := p
    by_cases hk : k' = k
    · simp only [dictDel, if_pos hk] at h
      exact List.mem_cons_of_mem _ (ih h)
    · simp only [dictDel, if_neg hk, List.mem_cons] at h
      rcases h with h | h
      · simp [h]
      · exact List.mem_cons_of_mem _ (ih h)

theorem mem_dictDel_ne {α : Type} (d : List (String × α)) (k : String)
    (q : String × α) (h : q ∈ dictDel d k) : q.1 ≠ k := by
  induction d with
  | nil => simp [dictDel] at h
  | cons p rest ih =>
    obtain ⟨k', v'⟩ := p
    by_cases hk : k' = k
    · simp only [dictDel, if_pos hk] at h
      exact ih h
    · simp only [dictDel, if_neg hk, List.mem_cons] at h
      rcases h with h | h
      · subst h
        exact hk
      · exact ih h

/-! Characterisation of the record updates. -/

theorem applyTokens_eq (c : LLMCommunication) (role : String) (t : Option Int) :
    applyTokens c role t =
      { c with
          total_input_tokens := c.total_input_tokens + msgInTok role t
          total_output_tokens := c.total_output_tokens + msgOutTok role t
          total_tokens :=
            if tokTruthy t then
              c.total_input_tokens + msgInTok role t +
                (c.total_output_tokens + msgOutTok role t)
            else c.total_tokens } := by
  cases t with
  | none => simp [applyTokens, msgInTok, msgOutTok, tokTruthy]
  | some t =>
    by_cases h0 : t = 0
    · simp [applyTokens, msgInTok, msgOutTok, tokTruthy, h0]
    · by_cases hu : role = "user" ∨ role = "system"
      · have ha : ¬ role = "assistant" := by
          rcases hu with hu | hu <;> subst hu <;> decide
        simp [applyTokens, msgInTok, msgOutTok, tokTruthy, h0, hu, ha]
      · by_cases ha : role = "assistant"
        · simp [applyTokens, msgInTok, msgOutTok, tokTruthy, h0, hu, ha]
        · simp [applyTokens, msgInTok, msgOutTok, tokTruthy, h0, hu, ha]

theorem msgInTok_not_truthy (role : String) (t : Option Int)
    (h : tokTruthy t = false) : msgInTok role t = 0 := by
  cases t with
  | none => simp [msgInTok]
  | some t =>
    simp [tokTruthy] at h
    simp [msgInTok, h]

theorem msgOutTok_not_truthy (role : String) (t : Option Int)
    (h : tokTruthy t = false) : msgOutTok role t = 0 := by
  cases t with
  | none => simp [msgOutTok]
  | some t =>
    simp [tokTruthy] at h
    simp [msgOutTok, h]

theorem addMsgUpdate_input (c : LLMCommunication) (a : MsgArgs) :
    (addMsgUpdate c a).total_input_tokens = c.total_input_tokens + msgInTok a.role a.tokens := by
  cases hb : dictTruthy a.function_call <;> cases hb2 : listTruthy a.tool_calls <;>
    simp [addMsgUpdate, hb, hb2, applyTokens_eq]

theorem addMsgUpdate_output (c : LLMCommunication) (a : MsgArgs) :
    (addMsgUpdate c a).total_output_tokens = c.total_output_tokens + msgOutTok a.role a.tokens := by
  cases hb : dictTruthy a.function_call <;> cases hb2 : listTruthy a.tool_calls <;>
    simp [addMsgUpdate, hb, hb2, applyTokens_eq]

theorem addMsgUpdate_session_end (c : LLMCommunication) (a : MsgArgs) :
    (addMsgUpdate c a).session_end = c.session_end := by
  cases hb : dictTruthy a.function_call <;> cases hb2 : listTruthy a.tool_calls <;>
    simp [addMsgUpdate, hb, hb2, applyTokens_eq]

theorem addMsgUpdate_cost (c : LLMCommunication) (a : MsgArgs) :
    (addMsgUpdate c a).cost_estimate = c.cost_estimate := by
  cases hb : dictTruthy a.function_call <;> cases hb2 : listTruthy a.tool_calls <;>
    simp [addMsgUpdate, hb, hb2, applyTokens_eq]

theorem addMsgUpdate_total (c : LLMCommunication) (a : MsgArgs)
    (h : c.total_tokens = c.total_input_tokens + c.total_output_tokens) :
    (addMsgUpdate c a).total_tokens =
      (addMsgUpdate c a).total_input_tokens + (addMsgUpdate c a).total_output_tokens := by
  rw [addMsgUpdate_input, addMsgUpdate_output]
  have htot : (addMsgUpdate c a).total_tokens =
      if tokTruthy a.tokens then
        c.total_input_tokens + msgInTok a.role a.tokens +
          (c.total_output_tokens + msgOutTok a.role a.tokens)
      else c.total_tokens := by
    cases hb : dictTruthy a.function_call <;> cases hb2 : listTruthy a.tool_calls <;>
      simp [addMsgUpdate, hb, hb2, applyTokens_eq]
  rw [htot]
  cases ht : tokTruthy a.tokens with
  | true => simp
  | false =>
    simp [h, msgInTok_not_truthy _ _ ht, msgOutTok_not_truthy _ _ ht]

theorem add_message_found (st : TrackerState) (comm_id : String) (a : MsgArgs)
    (c : LLMCommunication) (h : dictGet st.communications comm_id = some c) :
    add_message st comm_id a =
      { st with communications := dictSet st.communications comm_id (addMsgUpdate c a) } := by
  simp [add_message, h]

theorem add_message_not_found (st : TrackerState) (comm_id : String) (a : MsgArgs)
    (h : dictGet st.communications comm_id = none) :
    add_message st comm_id a = st := by
  simp [add_message, h]

theorem completeUpdate_cost (c : LLMCommunication) (a : CompleteArgs) :
    (completeUpdate c a).cost_estimate = calculate_cost c := rfl

theorem completeUpdate_agent_id (c : LLMCommunication) (a : CompleteArgs) :
    (completeUpdate c a).agent_id = c.agent_id := rfl

theorem complete_not_found (st : TrackerState) (comm_id : String) (a : CompleteArgs)
    (h : dictGet st.communications comm_id = none) :
    complete_communication st comm_id a = (st, false) := by
  simp [complete_communication, h]

theorem complete_empty (st : TrackerState) (comm_id : String) (a : CompleteArgs)
    (c : LLMCommunication) (h : dictGet st.communications comm_id = some c)
    (he : c.messages = []) :
    complete_communication st comm_id a =
      ({ st with communications := dictDel st.communications comm_id }, false) := by
  simp [complete_communication, h, he]

theorem complete_nonempty (st : TrackerState) (comm_id : String) (a : CompleteArgs)
    (c : LLMCommunication) (h : dictGet st.communications comm_id = some c)
    (hne : c.messages ≠ []) :
    complete_communication st comm_id a =
      ({ st with
          communications := dictSet st.communications comm_id (completeUpdate c a)
          active_sessions := dictDel st.active_sessions c.agent_id },
       st.webhook_url.isSome) := by
  have he : c.messages.isEmpty = false := by
    cases hm : c.messages with
    | nil => exact absurd hm hne
    | cons x xs => simp
  simp [complete_communication, h, he, completeUpdate_agent_id]

theorem start_get_self (st : TrackerState) (a : StartArgs) :
    dictGet (start_communication st a).communications a.comm_id = some (startComm a) := by
  simp only [start_communication]
  exact dictGet_dictSet_self _ _ _

/-- Folding a sequence of `add_message` calls over a stored communication
adds exactly the user/system token sum to the input bucket and the
assistant token sum to the output bucket. -/
theorem runAdds_tokens (calls : List MsgArgs) :
    ∀ (st : TrackerState) (comm_id : String) (c : LLMCommunication),
      dictGet st.communications comm_id = some c →
      ∃ c', dictGet (runAdds st comm_id calls).communications comm_id = some c' ∧
        c'.total_input_tokens = c.total_input_tokens + sumInTok calls ∧
        c'.total_output_tokens = c.total_output_tokens + sumOutTok calls := by
  induction calls with
  | nil =>
    intro st comm_id c h
    exact ⟨c, by simpa [runAdds] using h, by simp [sumInTok], by simp [sumOutTok]⟩
  | cons a rest ih =>
    intro st comm_id c h
    have h1 : dictGet (add_message st comm_id a).communications comm_id
        = some (addMsgUpdate c a) := by
      rw [add_message_found st comm_id a c h]
      exact dictGet_dictSet_self _ _ _
    obtain ⟨c', hget, hin, hout⟩ := ih (add_message st comm_id a) comm_id (addMsgUpdate c a) h1
    refine ⟨c', by simpa [runAdds] using hget, ?_, ?_⟩
    · rw [hin, addMsgUpdate_input]
      simp [sumInTok]
      ring
    · rw [hout, addMsgUpdate_output]
      simp [sumOutTok]
      ring

theorem completeUpdate_session_end (c : LLMCommunication) (a : CompleteArgs) :
    (completeUpdate c a).session_end = some a.now := rfl

/-! Invariant preservation (for C4). -/

theorem trackerInv_init (w : Option String) : TrackerInv (initTracker w) := by
  intro p hp
  simp [initTracker] at hp

theorem trackerInv_start (st : TrackerState) (a : StartArgs) (h : TrackerInv st) :
    TrackerInv (start_communication st a) := by
  intro p hp
  rcases mem_dictSet _ _ _ _ hp with h1 | h1
  · subst h1
    simp [startComm]
  · exact h p h1

theorem trackerInv_add (st : TrackerState) (comm_id : String) (a : MsgArgs)
    (h : TrackerInv st) : TrackerInv (add_message st comm_id a) := by
  cases hg : dictGet st.communications comm_id with
  | none =>
    rw [add_message_not_found st comm_id a hg]
    exact h
  | some c =>
    rw [add_message_found st comm_id a c hg]
    intro p hp
    rcases mem_dictSet _ _ _ _ hp with h1 | h1
    · subst h1
      refine ⟨addMsgUpdate_total c a (h _ (dictGet_mem _ _ _ hg)).1, ?_⟩
      intro hse
      rw [addMsgUpdate_session_end] at hse
      rw [addMsgUpdate_cost]
      exact (h _ (dictGet_mem _ _ _ hg)).2 hse
    · exact h p h1

theorem trackerInv_complete (st : TrackerState) (comm_id : String) (a : CompleteArgs)
    (h : TrackerInv st) : TrackerInv ((complete_communication st comm_id a).1) := by
  cases hg : dictGet st.communications comm_id with
  | none =>
    rw [complete_not_found st comm_id a hg]
    exact h
  | some c =>
    by_cases he : c.messages = []
    · rw [complete_empty st comm_id a c hg he]
      intro p hp
      exact h p (mem_dictDel _ _ _ hp)
    · rw [complete_nonempty st comm_id a c hg he]
      intro p hp
      rcases mem_dictSet _ _ _ _ hp with h1 | h1
      · subst h1
        refine ⟨(h _ (dictGet_mem _ _ _ hg)).1, ?_⟩
        intro hse
        rw [completeUpdate_session_end] at hse
        cases hse
      · exact h p h1

theorem trackerInv_runOps (ops : List TrackerOp) :
    ∀ st, TrackerInv st → TrackerInv (runOps st ops) := by
  induction ops with
  | nil =>
    intro st h
    simpa [runOps] using h
  | cons op rest ih =>
    intro st h
    have h1 : TrackerInv (applyOp st op) := by
      cases op with
      | start a => exact trackerInv_start st a h
      | message comm_id a => exact trackerInv_add st comm_id a h
      | complete comm_id a => exact trackerInv_complete st comm_id a h
    simpa [runOps] using ih (applyOp st op) h1

/-! Claim theorems. -/

/-- C1: starting a communication and running any sequence of `add_message`
calls on it leaves it stored with `total_input_tokens` equal to the sum of
the token counts supplied with role `user` or `system`, and
`total_output_tokens` equal to the sum of those supplied with role
`assistant` (`msgInTok`/`msgOutTok` give `0` for every other role,
including `function`, so those calls feed neither bucket). -/
theorem C1_add_message_token_accumulation (st : TrackerState) (a : StartArgs)
    (calls : List MsgArgs) :
    ∃ c', get_communication (runAdds (start_communication st a) a.comm_id calls) a.comm_id
        = some c' ∧
      c'.total_input_tokens = sumInTok calls ∧
      c'.total_output_tokens = sumOutTok calls := by
  obtain ⟨c', hget, hin, hout⟩ :=
    runAdds_tokens calls (start_communication st a) a.comm_id (startComm a) (start_get_self st a)
  refine ⟨c', hget, ?_, ?_⟩
  · rw [hin]
    simp [startComm]
  · rw [hout]
    simp [startComm]

/-- C4: in every state reachable from a fresh tracker by any sequence of
`start_communication` / `add_message` / `complete_communication` calls,
every stored communication satisfies
`total_tokens = total_input_tokens + total_output_tokens`, and its
`cost_estimate` is `0` while `session_end` is unset. -/
theorem C4_totals_and_cost_invariant (w : Option String) (ops : List TrackerOp)
    (comm_id : String) (c : LLMCommunication)
    (h : get_communication (runOps (initTracker w) ops) comm_id = some c) :
    c.total_tokens = c.total_input_tokens + c.total_output_tokens ∧
    (c.session_end = none → c.cost_estimate = 0) :=
  trackerInv_runOps ops (initTracker w) (trackerInv_init w) (comm_id, c) (dictGet_mem _ _ _ h)

/-- Witness for C4: after a single `start`, the stored record satisfies the
invariant, and since its `session_end` is unset its cost is `0`. -/
theorem C4_totals_and_cost_invariant_witness :
    (startComm exStart).total_tokens
        = (startComm exStart).total_input_tokens + (startComm exStart).total_output_tokens ∧
    (startComm exStart).cost_estimate = 0 := by
  have h := C4_totals_and_cost_invariant none [TrackerOp.start exStart] "c1" (startComm exStart)
    (by decide)
  exact ⟨h.1, h.2 rfl⟩

/-- C2: completing a communication with an empty message list deletes it
and does nothing else: the only state change is the deletion (so no cost
is written anywhere and the webhook flag is `false`), a subsequent
`get_communication` returns `none`, and its id no longer keys any store
entry — hence it is absent from the export payload and from every
aggregate of `get_communication_stats`, both of which are computed from
`communications` alone. -/
theorem C2_empty_completion_deletes (st : TrackerState) (comm_id : String)
    (a : CompleteArgs) (c : LLMCommunication)
    (h : dictGet st.communications comm_id = some c) (he : c.messages = []) :
    get_communication (complete_communication st comm_id a).1 comm_id = none ∧
    (complete_communication st comm_id a).2 = false ∧
    (complete_communication st comm_id a).1.communications
      = dictDel st.communications comm_id ∧
    (complete_communication st comm_id a).1.active_sessions = st.active_sessions ∧
    (∀ q ∈ (complete_communication st comm_id a).1.communications, q.1 ≠ comm_id) := by
  rw [complete_empty st comm_id a c h he]
  refine ⟨dictGet_dictDel_self _ _, rfl, rfl, rfl, ?_⟩
  intro q hq
  exact mem_dictDel_ne _ _ _ hq

/-- Witness for C2: completing the freshly started (empty) communication
`c2` removes it and sends no webhook even though a webhook URL is set. -/
theorem C2_empty_completion_deletes_witness :
    get_communication (complete_communication exStE "c2" exCA).1 "c2" = none ∧
    (complete_communication exStE "c2" exCA).2 = false := by
  have h := C2_empty_completion_deletes exStE "c2" exCA
    (startComm { exStart with comm_id := "c2", agent_id := "a2" }) (by decide) (by decide)
  exact ⟨h.1, h.2.1⟩

/-- C3 counterexample: agent `X` starts communication `A`, sends a message
on it, then starts `B` (so the index entry for `X` points at `B`, not
`A`).  Completing `A` nevertheless removes the index entry — the claim
that the entry is left unchanged when it points at a different (newer)
communication id is false. -/
theorem C3_counterexample :
    dictGet exStB.active_sessions "X" = some "B" ∧
    dictGet (complete_communication exStB "A" exCA).1.active_sessions "X" = none := by
  decide

/-- C3 amended: completing a non-empty communication removes the
agent_id entry from the active-session index unconditionally — whatever
communication id that entry currently holds. -/
theorem C3_amended_unconditional_index_removal (st : TrackerState) (comm_id : String)
    (a : CompleteArgs) (c : LLMCommunication)
    (h : dictGet st.communications comm_id = some c) (hne : c.messages ≠ []) :
    dictGet (complete_communication st comm_id a).1.active_sessions c.agent_id = none ∧
    (complete_communication st comm_id a).1.active_sessions
      = dictDel st.active_sessions c.agent_id := by
  rw [complete_nonempty st comm_id a c h hne]
  exact ⟨dictGet_dictDel_self _ _, rfl⟩

/-- Witness for the amended C3: completing `A` removes agent `X`'s index
entry even though it points at `B`. -/
theorem C3_amended_unconditional_index_removal_witness :
    dictGet (complete_communication exStB "A" exCA).1.active_sessions
      ((dictGet exStB.communications "A").getD exDummy).agent_id = none := by
  have h := C3_amended_unconditional_index_removal exStB "A" exCA
    ((dictGet exStB.communications "A").getD exDummy) (by decide) (by decide)
  exact h.1

/-- C10: the anti-noise deletion path returns before the index cleanup, so
completing an empty communication leaves the whole active-session index
unchanged (its stale entry included), and whenever `get_communication_stats`
takes its non-minimal branch the `active` count it reports is exactly the
size of that index. -/
theorem C10_stale_active_entry :
    (∀ (st : TrackerState) (comm_id : String) (a : CompleteArgs) (c : LLMCommunication),
      dictGet st.communications comm_id = some c → c.messages = [] →
      (complete_communication st comm_id a).1.active_sessions = st.active_sessions) ∧
    (∀ st : TrackerState, completedOf st ≠ [] →
      (get_communication_stats st).active = some st.active_sessions.length) := by
  constructor
  · intro st comm_id a c h he
    rw [complete_empty st comm_id a c h he]
  · intro st h
    have h' : ((st.communications.map Prod.snd).filter
        (fun c => c.session_end.isSome)).isEmpty = false := by
      have hco : (st.communications.map Prod.snd).filter (fun c => c.session_end.isSome)
          = completedOf st := rfl
      rw [hco]
      cases hm : completedOf st with
      | nil => exact absurd hm h
      | cons x xs => simp
    simp [get_communication_stats, h']

/-- Witness for C10: completing the empty communication `c9` on a state
that also holds the completed `c1` keeps agent `a9`'s index entry, and the
stats of the resulting state still count it as active. -/
theorem C10_stale_active_entry_witness :
    (complete_communication exStMix "c9" exCA).1.active_sessions = exStMix.active_sessions ∧
    (get_communication_stats (complete_communication exStMix "c9" exCA).1).active
      = some 1 := by
  constructor
  · exact C10_stale_active_entry.1 exStMix "c9" exCA
      (startComm { exStart with comm_id := "c9", agent_id := "a9", now := 5 })
      (by decide) (by decide)
  · have h := C10_stale_active_entry.2 (complete_communication exStMix "c9" exCA).1
      (by decide)
    rw [h]
    decide

/-- C5: the cost model.  Completing a non-empty communication whose
(provider, model) pair is priced stores
`(input_tokens/1000)*input_price + (output_tokens/1000)*output_price` as
its cost estimate; an unpriced provider or model always yields `0` without
failing; concretely, the gpt-4 scenario with 1000 input and 1000 output
tokens completes with cost `9/100 = 0.09`, and an unknown model completes
with cost `0`. -/
theorem C5_cost_model :
    (∀ (st : TrackerState) (comm_id : String) (a : CompleteArgs) (c : LLMCommunication)
        (i o : ℚ),
      dictGet st.communications comm_id = some c → c.messages ≠ [] →
      pricing c.provider c.model = some (i, o) →
      (get_communication (complete_communication st comm_id a).1 comm_id).map
          (fun x => x.cost_estimate)
        = some ((c.total_input_tokens : ℚ) / 1000 * i + (c.total_output_tokens : ℚ) / 1000 * o)) ∧
    (∀ c : LLMCommunication, pricing c.provider c.model = none → calculate_cost c = 0) ∧
    (get_communication exSt4 "c1").map (fun x => x.cost_estimate) = some (9 / 100) ∧
    (get_communication exStU "u1").map (fun x => x.cost_estimate) = some 0 := by
  have h4 : (get_communication exSt4 "c1").map (fun x => x.cost_estimate)
      = some (((1000 : Int) : ℚ) / 1000 * (3 / 100) + ((1000 : Int) : ℚ) / 1000 * (6 / 100)) :=
    rfl
  refine ⟨?_, ?_, by rw [h4]; norm_num, rfl⟩
  · intro st comm_id a c i o h hne hp
    rw [complete_nonempty st comm_id a c h hne]
    show (dictGet (dictSet st.communications comm_id (completeUpdate c a)) comm_id).map
        (fun x => x.cost_estimate) = _
    rw [dictGet_dictSet_self]
    simp [completeUpdate_cost, calculate_cost, hp]
  · intro c hp
    simp [calculate_cost, hp]

/-- Witness for C5: the priced-model branch applied to the concrete gpt-4
scenario. -/
theorem C5_cost_model_witness :
    (get_communication (complete_communication exSt3 "c1" exCA4).1 "c1").map
        (fun x => x.cost_estimate)
      = some ((((dictGet exSt3.communications "c1").getD exDummy).total_input_tokens : ℚ)
            / 1000 * (3 / 100)
          + (((dictGet exSt3.communications "c1").getD exDummy).total_output_tokens : ℚ)
            / 1000 * (6 / 100)) := by
  exact C5_cost_model.1 exSt3 "c1" exCA4 ((dictGet exSt3.communications "c1").getD exDummy)
    (3 / 100) (6 / 100) rfl (by decide) rfl

theorem strHas_quota_of_insufficient (s : String)
    (h : strHas s "insufficient_quota") : strHas s "quota" := by
  have hsub : ("quota".toList) <:+: ("insufficient_quota".toList) := by decide
  exact hsub.trans h

/-- C6: the classifier's substring rules apply in fixed priority order
with the first match winning: any message containing `quota`
(case-insensitively) classifies as `quota_exceeded`/429 whatever else it
contains; a quota-free message containing `rate limit` (case-insensitively)
or `429` classifies as `rate_limit`/429; and a message matching none of
the rules classifies as `unknown_error` with the exception's native
`status_code` attribute as its code (`none` when absent). -/
theorem C6_error_classifier_priority :
    (∀ e : PyException, strHas (pyLower e.msg) "quota" →
      parse_openai_error e = (e.msg, "quota_exceeded", some 429)) ∧
    (∀ e : PyException, ¬ strHas (pyLower e.msg) "quota" →
      (strHas (pyLower e.msg) "rate limit" ∨ strHas e.msg "429") →
      parse_openai_error e = (e.msg, "rate_limit", some 429)) ∧
    (∀ e : PyException,
      ¬ strHas (pyLower e.msg) "quota" →
      ¬ strHas (pyLower e.msg) "rate limit" → ¬ strHas e.msg "429" →
      ¬ strHas (pyLower e.msg) "invalid api key" →
      ¬ strHas (pyLower e.msg) "unauthorized" → ¬ strHas e.msg "401" →
      ¬ strHas (pyLower e.msg) "api key specified is not a valid openai format" →
      ¬ strHas e.msg "400" → ¬ strHas e.msg "500" →
      parse_openai_error e = (e.msg, "unknown_error", e.status_code)) := by
  refine ⟨?_, ?_, ?_⟩
  · intro e h
    simp [parse_openai_error, h]
  · intro e hq hrl
    have hiq : ¬ strHas (pyLower e.msg) "insufficient_quota" :=
      fun hh => hq (strHas_quota_of_insufficient _ hh)
    rcases hrl with h | h <;> simp [parse_openai_error, hq, hiq, h]
  · intro e hq hrlim hn429 hkey hauth hn401 hfmt hn400 hn500
    have hiq : ¬ strHas (pyLower e.msg) "insufficient_quota" :=
      fun hh => hq (strHas_quota_of_insufficient _ hh)
    simp [parse_openai_error, hq, hiq, hrlim, hn429, hkey, hauth, hn401, hfmt, hn400, hn500]

/-- Witness for C6: the three rule families applied to concrete messages —
a message with both `quota` and `401`, the spec's rate-limit message, and
an unmatched message carrying a native status code. -/
theorem C6_error_classifier_priority_witness :
    parse_openai_error exQuota401 = ("quota 401", "quota_exceeded", some 429) ∧
    parse_openai_error exRateErr
      = ("Rate limit reached, please retry. (429)", "rate_limit", some 429) ∧
    parse_openai_error exWeird = ("weird", "unknown_error", some 418) := by
  refine ⟨?_, ?_, ?_⟩
  · exact C6_error_classifier_priority.1 exQuota401 (by decide)
  · exact C6_error_classifier_priority.2.1 exRateErr (by decide) (Or.inl (by decide))
  · exact C6_error_classifier_priority.2.2 exWeird (by decide) (by decide) (by decide)
      (by decide) (by decide) (by decide) (by decide) (by decide) (by decide)

/-- C7: `get_communication_stats` reports `total` as the number of all
stored communications (open ones included) whenever at least one
completed communication exists; with zero completed communications it
returns exactly the minimal `{total := 0, completed := 0}` shape — however
many open communications are stored — and the mean over completed
sessions is only ever formed in the non-empty branch. -/
theorem C7_stats_total_and_empty_shape :
    (∀ st : TrackerState, completedOf st = [] →
      get_communication_stats st = { total := 0, completed := 0 }) ∧
    (∀ st : TrackerState, completedOf st ≠ [] →
      (get_communication_stats st).total = st.communications.length ∧
      (get_communication_stats st).completed = (completedOf st).length) := by
  constructor
  · intro st h
    have h' : ((st.communications.map Prod.snd).filter
        (fun c => c.session_end.isSome)).isEmpty = true := by
      have hco : (st.communications.map Prod.snd).filter (fun c => c.session_end.isSome)
          = completedOf st := rfl
      rw [hco, h]
      rfl
    simp [get_communication_stats, h']
  · intro st h
    have h' : ((st.communications.map Prod.snd).filter
        (fun c => c.session_end.isSome)).isEmpty = false := by
      have hco : (st.communications.map Prod.snd).filter (fun c => c.session_end.isSome)
          = completedOf st := rfl
      rw [hco]
      cases hm : completedOf st with
      | nil => exact absurd hm h
      | cons x xs => simp
    constructor
    · simp [get_communication_stats, h']
    · simp [get_communication_stats, h', completedOf]

/-- Witness for C7: a fresh tracker gives the minimal shape; the state
holding an open communication besides a completed one reports every
stored record in `total`. -/
theorem C7_stats_total_and_empty_shape_witness :
    get_communication_stats (initTracker none) = { total := 0, completed := 0 } ∧
    (get_communication_stats exStMix).total = exStMix.communications.length := by
  refine ⟨?_, ?_⟩
  · exact C7_stats_total_and_empty_shape.1 (initTracker none) (by decide)
  · exact (C7_stats_total_and_empty_shape.2 exStMix (by decide)).1

/-- C8 counterexample: `c1` in `exSt4` is completed (`session_end` set,
1000 input tokens, two messages), yet a later `add_message` on the same id
appends a third message and raises `total_input_tokens` to 1007 — a
subsequent tracker operation does change fields of a completed record, so
the claim is false. -/
theorem C8_counterexample :
    (get_communication exSt4 "c1").map
        (fun c => (c.session_end.isSome, c.total_input_tokens, c.messages.length))
      = some (true, 1000, 2) ∧
    (get_communication (add_message exSt4 "c1" exLateMsg) "c1").map
        (fun c => (c.total_input_tokens, c.messages.length))
      = some (1007, 3) := by
  decide

/-- C8 amended: a completed communication stays retrievable, and no
tracker operation addressed to a *different* communication id changes any
field of it (operations addressed to its own id — a further `add_message`
or a second `complete` — can still mutate it, as the counterexample
shows); it is only removed by explicit bulk reset, which the tracker API
modelled here never performs. -/
theorem C8_amended_frame (st : TrackerState) (comm_id : String) (c : LLMCommunication)
    (h : dictGet st.communications comm_id = some c)
    (oid : String) (hne : oid ≠ comm_id) (ma : MsgArgs) (ca : CompleteArgs)
    (sa : StartArgs) (hs : sa.comm_id ≠ comm_id) :
    get_communication (add_message st oid ma) comm_id = some c ∧
    get_communication (complete_communication st oid ca).1 comm_id = some c ∧
    get_communication (start_communication st sa) comm_id = some c := by
  refine ⟨?_, ?_, ?_⟩
  · cases hg : dictGet st.communications oid with
    | none =>
      rw [add_message_not_found st oid ma hg]
      exact h
    | some c2 =>
      rw [add_message_found st oid ma c2 hg]
      show dictGet (dictSet st.communications oid (addMsgUpdate c2 ma)) comm_id = some c
      rw [dictGet_dictSet_ne _ _ _ _ (Ne.symm hne)]
      exact h
  · cases hg : dictGet st.communications oid with
    | none =>
      rw [complete_not_found st oid ca hg]
      exact h
    | some c2 =>
      by_cases he : c2.messages = []
      · rw [complete_empty st oid ca c2 hg he]
        show dictGet (dictDel st.communications oid) comm_id = some c
        rw [dictGet_dictDel_ne _ _ _ (Ne.symm hne)]
        exact h
      · rw [complete_nonempty st oid ca c2 hg he]
        show dictGet (dictSet st.communications oid (completeUpdate c2 ca)) comm_id = some c
        rw [dictGet_dictSet_ne _ _ _ _ (Ne.symm hne)]
        exact h
  · show dictGet (dictSet st.communications sa.comm_id (startComm sa)) comm_id = some c
    rw [dictGet_dictSet_ne _ _ _ _ (Ne.symm hs)]
    exact h

/-- Witness for the amended C8: the completed `c1` is untouched by an
`add_message` and a `complete` addressed to another id and by a `start`
with a fresh id. -/
theorem C8_amended_frame_witness :
    get_communication (add_message exSt4 "zzz" exLateMsg) "c1"
      = some ((dictGet exSt4.communications "c1").getD exDummy) ∧
    get_communication (complete_communication exSt4 "zzz" exCA).1 "c1"
      = some ((dictGet exSt4.communications "c1").getD exDummy) ∧
    get_communication
        (start_communication exSt4 { exStart with comm_id := "c9", agent_id := "a9" }) "c1"
      = some ((dictGet exSt4.communications "c1").getD exDummy) := by
  exact C8_amended_frame exSt4 "c1" ((dictGet exSt4.communications "c1").getD exDummy)
    rfl "zzz" (by decide) exLateMsg exCA
    { exStart with comm_id := "c9", agent_id := "a9" } (by decide)

/-- C9: evaluation at the failing input.  `parse_openai_error` returns
`(message, type, code)`, but the AutoGen adapter unpacks the triple as
`(type, message, code)`, so the record it finalises carries the
classifier's *type* in `error_message` and the *message* in `error_type`;
the CrewAI adapter stores them the way the claim states; both hand the
original exception back unchanged. -/
theorem C9_autogen_swaps_error_fields :
    parse_openai_error exRateErr
      = ("Rate limit reached, please retry. (429)", "rate_limit", some 429) ∧
    (get_communication (autogen_handle_exception exSt3 "c1" exRateErr 5 9).1 "c1").map
        (fun c => (c.error_message, c.error_type, c.error_code))
      = some (some "rate_limit", some "Rate limit reached, please retry. (429)", some 429) ∧
    (get_communication (crewai_handle_exception exSt3 "c1" exRateErr 5 9).1 "c1").map
        (fun c => (c.error_message, c.error_type, c.error_code))
      = some (some "Rate limit reached, please retry. (429)", some "rate_limit", some 429) ∧
    (autogen_handle_exception exSt3 "c1" exRateErr 5 9).2.2 = exRateErr ∧
    (crewai_handle_exception exSt3 "c1" exRateErr 5 9).2.2 = exRateErr := by
  decide

end LLMTracker
